import Mathlib

/-!
Shallow embedding of the session-state logic of `src/ui_schema.py`
(a Streamlit app for schema-based data extraction from documents).

The page images are abstracted by a type parameter `α`: the page renderer
(`get_images_cached`), the schema generator (`generate_schema`), the schema
parser (`get_schema_class`) and the extractor (`extract_data_with_schema`)
are external collaborators, modelled as function parameters.  Everything
else — the session state dictionary and the handler bodies — is translated
directly from the source.
-/

/- JSON values, mutual with their list and object (ordered key/value) spines.
Python dicts preserve insertion order, so an object is an ordered list of
key/value pairs. -/
mutual
inductive Json where
  | str (s : String)
  | num (n : Int)
  | bool (b : Bool)
  | null
  | arr (elems : JsonList)
  | obj (fields : JsonObj)

inductive JsonList where
  | nil
  | cons (hd : Json) (tl : JsonList)

inductive JsonObj where
  | nil
  | cons (key : String) (val : Json) (tl : JsonObj)
end

/-- Session state, from the `st.session_state` initialisation block
(src/ui_schema.py lines 35-50).  `schemas` is a separate key from `schema`:
the upload handler (line 87) assigns to `st.session_state.schemas`, a key
nothing else reads, while the schema editor state lives under `schema`. -/
structure Session (α : Type) where
  uploadedFile : Option String
  pages : Option (List α)
  schema : Option String
  schemas : Option String
  extractedData : Option Json
  selectedPages : List Nat

/-- The placeholder pydantic schema (src/ui_schema.py lines 26-33). -/
def PLACEHOLDER_SCHEMA : String :=
  "from pydantic import BaseModel\nfrom typing import List, Optional\n\nclass Document(BaseModel):\n    \"\"\"Edit this schema or use \x27Generate Schema\x27 to create one automatically.\"\"\"\n    title: Optional[str] = None\n    content: Optional[List[str]] = None\n"

/-- Initial session state (src/ui_schema.py lines 35-50): no file, no pages,
placeholder schema, no extracted data, empty selection. -/
def initSession (α : Type) : Session α :=
  { uploadedFile := none
    pages := none
    schema := some PLACEHOLDER_SCHEMA
    schemas := none
    extractedData := none
    selectedPages := [] }

/-- `toggle_page` (src/ui_schema.py lines 52-56): Python `list.remove` deletes
the first occurrence, `list.append` adds at the end. -/
def toggle_page (sel : List Nat) (idx : Nat) : List Nat :=
  if idx ∈ sel then sel.erase idx else sel ++ [idx]

/-- The file-upload handler body (src/ui_schema.py lines 70-88), run when a new
file is uploaded.  `rendered` is the page-image list returned by the external
renderer `get_images_cached`.  Lines 81-84 warn and truncate past 10 pages;
lines 86-88 store the pages, assign `None` to the (dead) `schemas` key and
reset `extracted_data`.  The handler never touches `selected_pages` or
`schema`.  Returns the new state and the optional warning text. -/
def ingest (σ : Session α) (fileName : String) (rendered : List α) :
    Session α × Option String :=
  let warning : Option String :=
    if rendered.length > 10 then
      some ("Document has " ++ toString rendered.length ++
        " pages. Only the first 10 pages will be processed.")
    else none
  let pages := if rendered.length > 10 then rendered.take 10 else rendered
  ({ σ with uploadedFile := some fileName
            pages := some pages
            schemas := none
            extractedData := none }, warning)

/-- The "Select all pages" checkbox handler (src/ui_schema.py lines 96-101),
inside the `pages is not None` block (line 90).  Checked: selection becomes
`list(range(len(pages)))`.  Unchecked: cleared only when the current selection
length equals the page count. -/
def selectAll (σ : Session α) (flag : Bool) : Session α :=
  match σ.pages with
  | none => σ
  | some ps =>
    if flag then { σ with selectedPages := List.range ps.length }
    else if σ.selectedPages.length = ps.length then { σ with selectedPages := [] }
    else σ

/-- The list comprehension `[st.session_state.pages[i] for i in
st.session_state.selected_pages]` (src/ui_schema.py lines 130 and 154-156):
indices are traversed in the order they appear in `selected_pages`; an
out-of-range index raises IndexError, modelled as `none`. -/
def selectedImages (ps : List α) (sel : List Nat) : Option (List α) :=
  sel.mapM (fun i => ps.get? i)

/-- The "Generate Schema" button handler (src/ui_schema.py lines 129-134),
guarded by `n_selected > 0`.  `gen` is the external `generate_schema`
collaborator.  `none` models the uncaught IndexError when a selected index is
out of range. -/
def generateSchemaClick (gen : List α → String) (σ : Session α) :
    Option (Session α) :=
  match σ.pages with
  | none => some σ
  | some ps =>
    if σ.selectedPages = [] then some σ
    else
      match selectedImages ps σ.selectedPages with
      | none => none
      | some imgs => some { σ with schema := some (gen imgs) }

/-- The schema editor sync (src/ui_schema.py lines 145-146): the edited text
overwrites `schema` verbatim. -/
def editSchema (σ : Session α) (newText : String) : Session α :=
  { σ with schema := some newText }

/-- Outcome of a click on "Extract Data": which user-visible message or
uncaught exception the handler produced. -/
inductive ExtractOutcome where
  | success
  | missingSchema
  | parseError (e : String)
  | indexError
  | extractionError (e : String)
  | notRun
deriving DecidableEq, Repr

/-- The "Extract Data" button handler (src/ui_schema.py lines 149-161).  The
button is disabled when `n_selected == 0` (line 149); the only guard on the
schema text is `schema_code is not None` (line 151); `get_schema_class`
(parse) runs before the page-indexing comprehension (lines 152-156), then
`extract_data_with_schema` (ext); only on full success is
`extracted_data` assigned (line 158).  Exceptions (`SchemaParseError`,
IndexError, `ExtractionError`) are uncaught, so the session is left at its
prior value: every non-`success` outcome pairs with the unchanged `σ`. -/
def extractDataClick (parse : String → Except String β)
    (ext : List α → β → Except String Json) (σ : Session α) :
    Session α × ExtractOutcome :=
  match σ.pages with
  | none => (σ, .notRun)
  | some ps =>
    if σ.selectedPages = [] then (σ, .notRun)
    else
      match σ.schema with
      | none => (σ, .missingSchema)
      | some code =>
        match parse code with
        | .error e => (σ, .parseError e)
        | .ok cls =>
          match selectedImages ps σ.selectedPages with
          | none => (σ, .indexError)
          | some imgs =>
            match ext imgs cls with
            | .error e => (σ, .extractionError e)
            | .ok data => ({ σ with extractedData := some data }, .success)

/-- Two-space indentation prefix used by `json.dumps(·, indent=2)`. -/
def spaces (n : Nat) : String := String.mk (List.replicate n ' ')

/-- Python `json.dumps` string encoding; the inputs of interest contain no
characters needing escapes, for which the encoding is plain quoting. -/
def quoteStr (s : String) : String := "\"" ++ s ++ "\""

/- `json.dumps(data, indent=2)` (src/ui_schema.py line 166): with an indent,
items are separated by ",\n", keys by ": "; containers open with a newline,
indent children by two more spaces and close on a fresh line at the parent
indent; empty containers print inline. -/
mutual
def dumpJson : Json → Nat → String
  | .str s, _ => quoteStr s
  | .num n, _ => toString n
  | .bool b, _ => if b then "true" else "false"
  | .null, _ => "null"
  | .arr .nil, _ => "[]"
  | .arr es, d => "[\n" ++ dumpListItems es (d + 2) ++ "\n" ++ spaces d ++ "]"
  | .obj .nil, _ => "\x7b\x7d"
  | .obj fs, d => "\x7b\n" ++ dumpObjItems fs (d + 2) ++ "\n" ++ spaces d ++ "\x7d"

def dumpListItems : JsonList → Nat → String
  | .nil, _ => ""
  | .cons x .nil, d => spaces d ++ dumpJson x d
  | .cons x tl, d => spaces d ++ dumpJson x d ++ ",\n" ++ dumpListItems tl d

def dumpObjItems : JsonObj → Nat → String
  | .nil, _ => ""
  | .cons k v .nil, d => spaces d ++ quoteStr k ++ ": " ++ dumpJson v d
  | .cons k v tl, d =>
    spaces d ++ quoteStr k ++ ": " ++ dumpJson v d ++ ",\n" ++ dumpObjItems tl d
end

/-- The download button (src/ui_schema.py lines 164-171), rendered when
`extracted_data is not None`. -/
structure DownloadButton where
  label : String
  data : String
  file_name : String
  mime : String
deriving DecidableEq

/-- The download-button construction (src/ui_schema.py lines 164-171):
`json.dumps(data, indent=2)`, file name `data.json`, MIME
`application/json`. -/
def exportData (d : Json) : DownloadButton :=
  { label := "Download Extracted Data"
    data := dumpJson d 0
    file_name := "data.json"
    mime := "application/json" }

/-- The data-model invariant claimed by the spec: selected indices are valid
indices into `pages` when pages are present, and the selection is empty when
they are absent. -/
def SelectionInv (σ : Session α) : Prop :=
  match σ.pages with
  | some ps => ∀ i ∈ σ.selectedPages, i < ps.length
  | none => σ.selectedPages = []

instance (σ : Session α) : Decidable (SelectionInv σ) :=
  match h : σ.pages with
  | some ps =>
    decidable_of_iff (∀ i ∈ σ.selectedPages, i < ps.length)
      (by simp only [SelectionInv, h])
  | none =>
    decidable_of_iff (σ.selectedPages = []) (by simp only [SelectionInv, h])

/-- A session holding a selection left over from a previous five-page document:
page index 4 is selected.  Reachable by uploading a five-page file and toggling
its last page. -/
def staleSession : Session Nat :=
  { uploadedFile := some ("old.pdf")
    pages := some [11, 12, 13, 14, 15]
    schema := some PLACEHOLDER_SCHEMA
    schemas := none
    extractedData := some (Json.str ("old"))
    selectedPages := [4] }

/-- A session whose selection list was built by toggling page 2 first and
page 0 second, so `selected_pages = [2, 0]`. -/
def outOfOrderSession : Session Nat :=
  { uploadedFile := some ("doc.pdf")
    pages := some [10, 20, 30]
    schema := some PLACEHOLDER_SCHEMA
    schemas := none
    extractedData := none
    selectedPages := toggle_page (toggle_page [] 2) 0 }

/-- A three-page session with a partial (non-"all") selection. -/
def partialSession : Session Nat :=
  { uploadedFile := some ("doc.pdf")
    pages := some [51, 52, 53]
    schema := some PLACEHOLDER_SCHEMA
    schemas := none
    extractedData := none
    selectedPages := [1] }

/-- A two-page session with one selected page and arbitrary schema text. -/
def extractSession : Session Nat :=
  { uploadedFile := some ("doc.pdf")
    pages := some [31, 32]
    schema := some ("bad schema text")
    schemas := none
    extractedData := none
    selectedPages := [0] }

/-- A two-page session whose schema text is the empty string. -/
def emptySchemaSession : Session Nat :=
  { uploadedFile := some ("doc.pdf")
    pages := some [41, 42]
    schema := some ("")
    schemas := none
    extractedData := none
    selectedPages := [1] }

/-- The extracted-data value of the spec's export example:
`{"title": "X", "content": ["a", "b"]}` with `title` inserted first. -/
def sampleData : Json :=
  Json.obj (.cons ("title") (.str ("X"))
    (.cons ("content") (.arr (.cons (.str ("a")) (.cons (.str ("b")) .nil))) .nil))

lemma length_eq_iff_all_mem (l : List Nat) (n : Nat) (hnd : l.Nodup)
    (hsub : ∀ i ∈ l, i < n) : l.length = n ↔ ∀ i, i < n → i ∈ l := by
  have hsubF : l.toFinset ⊆ Finset.range n := by
    intro x hx
    exact Finset.mem_range.mpr (hsub x (List.mem_toFinset.mp hx))
  constructor
  · intro hlen i hi
    have hcard : l.toFinset.card = n := by
      rw [List.toFinset_card_of_nodup hnd, hlen]
    have heq : l.toFinset = Finset.range n :=
      Finset.eq_of_subset_of_card_le hsubF (by rw [hcard, Finset.card_range])
    have hmem : i ∈ l.toFinset := by rw [heq]; exact Finset.mem_range.mpr hi
    exact List.mem_toFinset.mp hmem
  · intro hall
    have hsupF : Finset.range n ⊆ l.toFinset := by
      intro x hx
      exact List.mem_toFinset.mpr (hall x (Finset.mem_range.mp hx))
    have heq : l.toFinset = Finset.range n := Finset.Subset.antisymm hsubF hsupF
    calc l.length = l.toFinset.card := (List.toFinset_card_of_nodup hnd).symm
    _ = n := by rw [heq, Finset.card_range]

lemma selectedImages_eq_map (ps : List α) (dflt : α) (sel : List Nat)
    (h : ∀ i ∈ sel, i < ps.length) :
    selectedImages ps sel = some (sel.map (fun i => ps.getD i dflt)) := by
  induction sel with
  | nil => rfl
  | cons a tl ih =>
    have ha : a < ps.length := h a (List.mem_cons_self a tl)
    have htl : ∀ i ∈ tl, i < ps.length := fun i hi => h i (List.mem_cons_of_mem a hi)
    have h1 : ps.get? a = some (ps.getD a dflt) := by
      rw [List.getD_eq_getElem?_getD, List.get?_eq_getElem?, List.getElem?_eq_getElem ha]
      rfl
    simp only [selectedImages] at ih ⊢
    rw [List.mapM_cons, h1, ih htl]
    rfl

lemma extractDataClick_eq (parse : String → Except String β)
    (ext : List α → β → Except String Json) (σ : Session α) (ps : List α)
    (code : String) (hp : σ.pages = some ps) (hsel : σ.selectedPages ≠ [])
    (hcode : σ.schema = some code) :
    extractDataClick parse ext σ =
      match parse code with
      | .error e => (σ, .parseError e)
      | .ok cls =>
        match selectedImages ps σ.selectedPages with
        | none => (σ, .indexError)
        | some imgs =>
          match ext imgs cls with
          | .error e => (σ, .extractionError e)
          | .ok data => ({ σ with extractedData := some data }, .success) := by
  simp only [extractDataClick, hp, hcode, if_neg hsel]

/-- C1: the claim says the upload handler clears `selectedPages`, but lines
86-88 of src/ui_schema.py overwrite `pages`, the dead `schemas` key and
`extracted_data` without ever touching `selected_pages`: after uploading a
two-page file into a session whose selection is `[4]`, the selection is still
`[4]`, not empty. -/
theorem c1_ingest_does_not_clear_selection :
    ((ingest staleSession ("new.pdf") [21, 22]).1).selectedPages = [4] ∧
    ((ingest staleSession ("new.pdf") [21, 22]).1).selectedPages ≠ [] := by
  exact ⟨rfl, by decide⟩

/-- C2: the selection-validity invariant holds before but not after the upload
handler runs on a shorter document: `staleSession` satisfies it (selection
`[4]`, five pages), the ingested state has two pages but selection still
`[4]`, and a subsequent Extract Data click hits the out-of-range index
(IndexError at line 155), even with parser and extractor that always
succeed. -/
theorem c2_selection_invariant_broken :
    SelectionInv staleSession ∧
    ¬ SelectionInv ((ingest staleSession ("new.pdf") [21, 22]).1) ∧
    (extractDataClick (fun s => (Except.ok s : Except String String))
        (fun _ _ => Except.ok Json.null)
        ((ingest staleSession ("new.pdf") [21, 22]).1)).2 =
      ExtractOutcome.indexError := by
  exact ⟨by decide, by decide, rfl⟩

/-- C8: the download button always offers `data.json` with MIME type
`application/json` and body `json.dumps(data, indent=2)`; on the sample value
`{"title": "X", "content": ["a", "b"]}` the body is exactly the claimed text,
with two-space indentation and `title` before `content` (insertion order). -/
theorem c8_export_format :
    (∀ d : Json, (exportData d).file_name = "data.json" ∧
      (exportData d).mime = "application/json" ∧
      (exportData d).data = dumpJson d 0) ∧
    (exportData sampleData).data =
      "\x7b\n  \"title\": \"X\",\n  \"content\": [\n    \"a\",\n    \"b\"\n  ]\n\x7d" :=
  ⟨fun _ => ⟨rfl, rfl, rfl⟩, rfl⟩

/-- C9: for every session, file name and rendered page list, the upload
handler leaves `schema` unchanged (line 87 assigns to the separate `schemas`
key), overwrites `pages` with the (possibly truncated) rendered list, and
resets `extracted_data` to absent. -/
theorem c9_ingest_preserves_schema_text (σ : Session α) (f : String)
    (rendered : List α) :
    ((ingest σ f rendered).1).schema = σ.schema ∧
    ((ingest σ f rendered).1).pages =
      some (if rendered.length > 10 then rendered.take 10 else rendered) ∧
    ((ingest σ f rendered).1).extractedData = none :=
  ⟨rfl, rfl, rfl⟩

/-- C6: after the upload handler runs, pages number at most 10; a rendered
document of more than 10 pages is truncated to exactly its first 10 and the
warning reports the original count; a document of at most 10 pages is kept at
exactly its original length with no warning. -/
theorem c6_ingest_truncates (σ : Session α) (f : String) (rendered : List α) :
    (∀ ps, ((ingest σ f rendered).1).pages = some ps → ps.length ≤ 10) ∧
    (rendered.length ≤ 10 →
      ((ingest σ f rendered).1).pages = some rendered ∧
      (ingest σ f rendered).2 = none) ∧
    (rendered.length > 10 →
      ((ingest σ f rendered).1).pages = some (rendered.take 10) ∧
      (rendered.take 10).length = 10 ∧
      (ingest σ f rendered).2 =
        some ("Document has " ++ toString rendered.length ++
          " pages. Only the first 10 pages will be processed.")) := by
  by_cases h : rendered.length > 10
  · refine ⟨?_, fun hle => absurd h (by omega), fun _ => ⟨?_, ?_, ?_⟩⟩
    · intro ps hps
      simp only [ingest, if_pos h, Option.some.injEq] at hps
      rw [← hps, List.length_take]
      omega
    · simp only [ingest, if_pos h]
    · rw [List.length_take]; omega
    · simp only [ingest, if_pos h]
  · refine ⟨?_, fun _ => ⟨?_, ?_⟩, fun hgt => absurd hgt h⟩
    · intro ps hps
      simp only [ingest, if_neg h, Option.some.injEq] at hps
      rw [← hps]
      omega
    · simp only [ingest, if_neg h]
    · simp only [ingest, if_neg h]

/-- C6 witness: a three-page document is kept whole with no warning; a
twelve-page document is cut to its first ten and the warning names 12. -/
theorem c6_ingest_truncates_witness :
    ((ingest (initSession Nat) ("short.pdf") [1, 2, 3]).1).pages = some [1, 2, 3] ∧
    (ingest (initSession Nat) ("short.pdf") [1, 2, 3]).2 = none ∧
    ((ingest (initSession Nat) ("long.pdf") (List.range 12)).1).pages =
      some ((List.range 12).take 10) ∧
    (ingest (initSession Nat) ("long.pdf") (List.range 12)).2 =
      some ("Document has 12 pages. Only the first 10 pages will be processed.") := by
  refine ⟨((c6_ingest_truncates (initSession Nat) ("short.pdf") [1, 2, 3]).2.1
      (by decide)).1,
    ((c6_ingest_truncates (initSession Nat) ("short.pdf") [1, 2, 3]).2.1
      (by decide)).2,
    ((c6_ingest_truncates (initSession Nat) ("long.pdf") (List.range 12)).2.2
      (by decide)).1, ?_⟩
  have h := ((c6_ingest_truncates (initSession Nat) ("long.pdf")
    (List.range 12)).2.2 (by decide)).2.2
  rw [h]
  rfl

/-- C4: with a valid, duplicate-free selection, checking "select all" selects
every page index; unchecking clears the selection exactly when it previously
contained all indices, and leaves any other selection (and the whole session)
unchanged. -/
theorem c4_select_all_toggle (σ : Session α) (ps : List α)
    (hp : σ.pages = some ps) (hnd : σ.selectedPages.Nodup)
    (hvalid : ∀ i ∈ σ.selectedPages, i < ps.length) :
    (selectAll σ true).selectedPages = List.range ps.length ∧
    ((∀ i, i < ps.length → i ∈ σ.selectedPages) →
      (selectAll σ false).selectedPages = []) ∧
    (¬ (∀ i, i < ps.length → i ∈ σ.selectedPages) → selectAll σ false = σ) := by
  have hiff := length_eq_iff_all_mem σ.selectedPages ps.length hnd hvalid
  refine ⟨?_, ?_, ?_⟩
  · simp only [selectAll, hp, if_pos]
  · intro hall
    have hlen : σ.selectedPages.length = ps.length := hiff.mpr hall
    simp only [selectAll, hp, Bool.false_eq_true, if_false, if_pos hlen]
  · intro hnot
    have hlen : σ.selectedPages.length ≠ ps.length := fun hc => hnot (hiff.mp hc)
    simp only [selectAll, hp, Bool.false_eq_true, if_false, if_neg hlen]

/-- C4 witness: on a three-page session with partial selection `[1]`, checking
"select all" yields `[0, 1, 2]` and unchecking leaves the session unchanged. -/
theorem c4_select_all_toggle_witness :
    (selectAll partialSession true).selectedPages = List.range 3 ∧
    selectAll partialSession false = partialSession :=
  ⟨(c4_select_all_toggle partialSession [51, 52, 53] rfl (by decide)
      (by decide)).1,
   (c4_select_all_toggle partialSession [51, 52, 53] rfl (by decide)
      (by decide)).2.2 (by decide)⟩

/-- C7 counterexample: from selection `[0, 1]`, toggling page 0 twice yields
`[1, 0]`, not the original list `[0, 1]`: `toggle_page` removes the index
from its old position and re-appends it at the end, so the stored
`selected_pages` value is not restored exactly. -/
theorem c7_toggle_list_order_counterexample :
    toggle_page (toggle_page [0, 1] 0) 0 = [1, 0] ∧
    toggle_page (toggle_page [0, 1] 0) 0 ≠ [0, 1] := by
  decide

/-- C7 (amended): on a duplicate-free selection, toggling the same index twice
restores the selection as a set — membership is exactly the original one and
the result is again duplicate-free — and restores the list itself when the
index was not previously selected. -/
theorem c7_toggle_restores_selected_set (sel : List Nat) (idx : Nat)
    (hnd : sel.Nodup) :
    (∀ x, x ∈ toggle_page (toggle_page sel idx) idx ↔ x ∈ sel) ∧
    (toggle_page (toggle_page sel idx) idx).Nodup ∧
    (idx ∉ sel → toggle_page (toggle_page sel idx) idx = sel) := by
  by_cases h : idx ∈ sel
  · have h1 : toggle_page sel idx = sel.erase idx := if_pos h
    have h2 : idx ∉ sel.erase idx := hnd.not_mem_erase
    have h3 : toggle_page (sel.erase idx) idx = sel.erase idx ++ [idx] :=
      if_neg h2
    refine ⟨?_, ?_, fun hn => absurd h hn⟩
    · intro x
      rw [h1, h3, List.mem_append, hnd.mem_erase_iff]
      constructor
      · rintro (⟨_, hx⟩ | hx)
        · exact hx
        · have hxi : x = idx := by simpa using hx
          rw [hxi]; exact h
      · intro hx
        by_cases hxi : x = idx
        · right; simp [hxi]
        · left; exact ⟨hxi, hx⟩
    · rw [h1, h3]
      refine List.Nodup.append (hnd.erase idx) (List.nodup_singleton idx) ?_
      intro x hx1 hx2
      have hxi : x = idx := by simpa using hx2
      rw [hxi] at hx1
      exact h2 hx1
  · have h1 : toggle_page sel idx = sel ++ [idx] := if_neg h
    have h2 : idx ∈ sel ++ [idx] := by simp
    have h3 : toggle_page (sel ++ [idx]) idx = (sel ++ [idx]).erase idx :=
      if_pos h2
    have h4 : (sel ++ [idx]).erase idx = sel := by
      rw [List.erase_append_right _ h, List.erase_cons_head, List.append_nil]
    refine ⟨?_, ?_, fun _ => ?_⟩ <;> rw [h1, h3, h4]
    · intro x; exact Iff.rfl
    · exact hnd

/-- C7 witness: toggling index 2 twice on the duplicate-free selection
`[0, 2]` keeps 2 selected and keeps the selection duplicate-free. -/
theorem c7_toggle_restores_selected_set_witness :
    (2 ∈ toggle_page (toggle_page [0, 2] 2) 2 ↔ 2 ∈ [0, 2]) ∧
    (toggle_page (toggle_page [0, 2] 2) 2).Nodup :=
  ⟨(c7_toggle_restores_selected_set [0, 2] 2 (by decide)).1 2,
   (c7_toggle_restores_selected_set [0, 2] 2 (by decide)).2.1⟩

/-- C5: when pages are present, a page is selected and schema text is present,
a failing schema parse makes the Extract Data handler stop with the parse
error and the whole session — pages, schema text, extracted data — equal to
its prior value; likewise a failing extractor call leaves the session at its
prior value (the only state write, line 158, happens after both calls). -/
theorem c5_extract_error_atomicity (parse : String → Except String β)
    (ext : List α → β → Except String Json) (σ : Session α) (ps : List α)
    (code : String) (hp : σ.pages = some ps) (hsel : σ.selectedPages ≠ [])
    (hcode : σ.schema = some code) :
    (∀ e, parse code = .error e →
      extractDataClick parse ext σ = (σ, .parseError e)) ∧
    (∀ cls imgs e, parse code = .ok cls →
      selectedImages ps σ.selectedPages = some imgs →
      ext imgs cls = .error e →
      extractDataClick parse ext σ = (σ, .extractionError e)) := by
  have hq := extractDataClick_eq parse ext σ ps code hp hsel hcode
  constructor
  · intro e he
    rw [hq, he]
  · intro cls imgs e h1 h2 h3
    simp only [extractDataClick, hp, hcode, if_neg hsel, h1, h2, h3]

/-- C5 witness: on a concrete two-page session, an always-failing parser
yields the parse error with the session unchanged, and a succeeding parser
followed by a failing extractor yields the extraction error with the session
unchanged. -/
theorem c5_extract_error_atomicity_witness :
    extractDataClick (fun _ => (Except.error ("parse failed") : Except String Nat))
      (fun _ _ => Except.ok Json.null) extractSession =
      (extractSession, ExtractOutcome.parseError ("parse failed")) ∧
    extractDataClick (fun _ => (Except.ok 7 : Except String Nat))
      (fun _ _ => (Except.error ("extractor failed") : Except String Json))
      extractSession =
      (extractSession, ExtractOutcome.extractionError ("extractor failed")) :=
  ⟨(c5_extract_error_atomicity (fun _ => Except.error ("parse failed"))
      (fun _ _ => Except.ok Json.null) extractSession [31, 32]
      ("bad schema text") rfl (by decide) rfl).1 ("parse failed") rfl,
   (c5_extract_error_atomicity (fun _ => Except.ok 7)
      (fun _ _ => Except.error ("extractor failed")) extractSession [31, 32]
      ("bad schema text") rfl (by decide) rfl).2 7 [31] ("extractor failed")
      rfl rfl rfl⟩

/-- C10: with pages present and a non-empty selection, a schema text equal to
the empty string passes the handler's only schema guard (`is not None`,
line 151): the missing-schema message is never shown, the empty string itself
is handed to the schema parser — whose verdict decides the outcome — and a
successful parse proceeds to extraction and stores its result. -/
theorem c10_empty_schema_not_rejected (parse : String → Except String β)
    (ext : List α → β → Except String Json) (σ : Session α) (ps : List α)
    (hp : σ.pages = some ps) (hsel : σ.selectedPages ≠ [])
    (hschema : σ.schema = some ("")) :
    (extractDataClick parse ext σ).2 ≠ ExtractOutcome.missingSchema ∧
    (∀ e, parse ("") = .error e →
      extractDataClick parse ext σ = (σ, .parseError e)) ∧
    (∀ cls imgs data, parse ("") = .ok cls →
      selectedImages ps σ.selectedPages = some imgs →
      ext imgs cls = .ok data →
      extractDataClick parse ext σ =
        ({ σ with extractedData := some data }, .success)) := by
  have hq := extractDataClick_eq parse ext σ ps ("") hp hsel hschema
  refine ⟨?_, ?_, ?_⟩
  · rw [hq]
    cases hpar : parse ("") with
    | error e => simp
    | ok cls =>
      cases himg : selectedImages ps σ.selectedPages with
      | none => simp
      | some imgs =>
        cases hext : ext imgs cls with
        | error e => simp [hext]
        | ok data => simp [hext]
  · intro e he
    rw [hq, he]
  · intro cls imgs data h1 h2 h3
    simp only [extractDataClick, hp, hschema, if_neg hsel, h1, h2, h3]

/-- C10 witness: on a concrete session whose schema text is the empty string,
with an echoing parser and a constant extractor, Extract Data does not show
the missing-schema message and completes, storing the extracted value. -/
theorem c10_empty_schema_not_rejected_witness :
    (extractDataClick (fun s => (Except.ok s : Except String String))
      (fun _ _ => Except.ok (Json.str ("done"))) emptySchemaSession).2 ≠
      ExtractOutcome.missingSchema ∧
    extractDataClick (fun s => (Except.ok s : Except String String))
      (fun _ _ => Except.ok (Json.str ("done"))) emptySchemaSession =
      ({ emptySchemaSession with extractedData := some (Json.str ("done")) },
        ExtractOutcome.success) :=
  ⟨(c10_empty_schema_not_rejected (fun s => Except.ok s)
      (fun _ _ => Except.ok (Json.str ("done"))) emptySchemaSession [41, 42]
      rfl (by decide) rfl).1,
   (c10_empty_schema_not_rejected (fun s => Except.ok s)
      (fun _ _ => Except.ok (Json.str ("done"))) emptySchemaSession [41, 42]
      rfl (by decide) rfl).2.2 ("") [42] (Json.str ("done")) rfl rfl rfl⟩

/-- C3 counterexample: in a three-page session whose selection was made by
toggling page 2 first and page 0 second, `selected_pages` is the list
`[2, 0]`; the comprehension yields `[pages[2], pages[0]]` = `[30, 10]` and
Generate Schema hands the collaborator exactly that list — not the
ascending-order `[pages[0], pages[2]]` = `[10, 30]` the claim requires. -/
theorem c3_not_ascending_order :
    outOfOrderSession.selectedPages = [2, 0] ∧
    selectedImages [10, 20, 30] outOfOrderSession.selectedPages =
      some [30, 10] ∧
    generateSchemaClick (fun imgs => toString imgs) outOfOrderSession =
      some { outOfOrderSession with
              schema := some (toString ([30, 10] : List Nat)) } ∧
    ([30, 10] : List Nat) ≠ [10, 30] :=
  ⟨by decide, by decide, rfl, by decide⟩

/-- C3 (amended): with every selected index in range, the image list handed to
the collaborators is the selection list mapped over `pages` — i.e. the images
in the order the indices appear in `selected_pages` (selection order), not
necessarily ascending; Generate Schema stores the collaborator's answer on
exactly that list. -/
theorem c3_images_in_selection_order (ps : List α) (sel : List Nat) (dflt : α)
    (h : ∀ i ∈ sel, i < ps.length) :
    selectedImages ps sel = some (sel.map (fun i => ps.getD i dflt)) ∧
    (∀ (gen : List α → String) (σ : Session α), σ.pages = some ps →
      σ.selectedPages = sel → sel ≠ [] →
      generateSchemaClick gen σ =
        some { σ with
                schema := some (gen (sel.map (fun i => ps.getD i dflt))) }) := by
  refine ⟨selectedImages_eq_map ps dflt sel h, ?_⟩
  intro gen σ hp hs hne
  simp only [generateSchemaClick, hp, hs, if_neg hne,
    selectedImages_eq_map ps dflt sel h]

/-- C3 witness: with pages `[10, 20, 30]` and selection list `[2, 0]`, the
comprehension yields `[30, 10]` and Generate Schema stores the collaborator's
output on `[30, 10]`. -/
theorem c3_images_in_selection_order_witness :
    selectedImages [10, 20, 30] [2, 0] =
      some (List.map (fun i => List.getD [10, 20, 30] i 0) [2, 0]) ∧
    generateSchemaClick (fun imgs => toString imgs) outOfOrderSession =
      some { outOfOrderSession with
              schema := some (toString
                (List.map (fun i => List.getD [10, 20, 30] i 0) [2, 0])) } :=
  ⟨(c3_images_in_selection_order [10, 20, 30] [2, 0] 0 (by decide)).1,
   (c3_images_in_selection_order [10, 20, 30] [2, 0] 0 (by decide)).2
      (fun imgs => toString imgs) outOfOrderSession rfl (by decide)
      (by decide)⟩
